import Mathlib

/-!
Shallow embedding of the Pulsera remote-patient-monitoring core:
the resilient LLM cascade with per-provider circuit breakers
(backend/agents/llm_client.py, backend/agents/gatekeeper.py,
backend/agents/fallback_responses.py) and the rPPG vitals pipeline
(backend/camera.py).

Modelling conventions:
- Machine floats become exact rationals; wall-clock instants are rationals.
- External library collaborators (the remote LLM providers, the VADER
  sentiment scorer, and the scipy/numpy numeric kernels) are supplied as
  explicit oracle inputs; all control flow and arithmetic written in the
  repository itself is embedded exactly.
- Fallible paths return Option; the cascade is a total function, mirroring
  the fact that every code path of generate returns an LLMResponse.
-/

/-! ## Circuit breaker (llm_client.py, CircuitBreakerState) -/

/-- Per-provider circuit breaker state, from dataclass CircuitBreakerState. -/
structure CircuitBreakerState where
  failures : ℕ := 0
  last_failure : Option ℚ := none
  is_open : Bool := false
deriving DecidableEq, Repr

/-- failure_threshold = 3 in the source dataclass. -/
def failure_threshold : ℕ := 3

/-- reset_timeout = timedelta(seconds=30) in the source dataclass. -/
def reset_timeout : ℚ := 30

/-- record_failure: increment the counter, stamp the time, open the
circuit once the threshold is reached. -/
def CircuitBreakerState.record_failure (s : CircuitBreakerState) (now : ℚ) :
    CircuitBreakerState :=
  let f := s.failures + 1
  { failures := f
    last_failure := some now
    is_open := if failure_threshold ≤ f then true else s.is_open }

/-- record_success: reset the counter and close the circuit. -/
def CircuitBreakerState.record_success (s : CircuitBreakerState) :
    CircuitBreakerState :=
  { s with failures := 0, is_open := false }

/-- should_allow_request: allow when closed; when open, allow only once
the reset timeout has strictly elapsed since the last failure. -/
def CircuitBreakerState.should_allow_request (s : CircuitBreakerState)
    (now : ℚ) : Bool :=
  if s.is_open = false then true
  else
    match s.last_failure with
    | some lf => decide (reset_timeout < now - lf)
    | none => false

/-- C2: the circuit breaker state machine. Three consecutive failures,
with no intervening success, always open the breaker. While open with
last failure at time lf, requests are refused at any time now with
now - lf at most 30 and permitted once now - lf strictly exceeds 30.
A failure recorded during the half-open window keeps the breaker open,
refreshes the failure timestamp, and thereby refuses requests again for
the following 30 seconds, so the half-open permission is granted exactly
once per elapsed window before the next state update. A success resets
the failure count to 0 and closes the breaker. -/
theorem circuit_breaker_state_machine
    (s : CircuitBreakerState) (t1 t2 t3 t now : ℚ) :
    ((((s.record_failure t1).record_failure t2).record_failure t3).is_open
      = true) ∧
    (∀ lf : ℚ, s.is_open = true → s.last_failure = some lf →
      (now - lf ≤ reset_timeout → s.should_allow_request now = false) ∧
      (reset_timeout < now - lf → s.should_allow_request now = true)) ∧
    (s.is_open = true →
      (s.record_failure t).is_open = true ∧
      (s.record_failure t).last_failure = some t ∧
      (∀ t' : ℚ, t' - t ≤ reset_timeout →
        (s.record_failure t).should_allow_request t' = false)) ∧
    (s.record_success.failures = 0 ∧ s.record_success.is_open = false) := by
  refine ⟨?_, ?_, ?_, ?_⟩
  · simp [CircuitBreakerState.record_failure, failure_threshold]
  · intro lf hopen hlf
    constructor
    · intro hle
      simp [CircuitBreakerState.should_allow_request, hopen, hlf]
      linarith
    · intro hlt
      simp [CircuitBreakerState.should_allow_request, hopen, hlf]
      linarith
  · intro hopen
    refine ⟨?_, ?_, ?_⟩
    · simp [CircuitBreakerState.record_failure]
      exact Or.inr hopen
    · simp [CircuitBreakerState.record_failure]
    · intro t' ht'
      simp [CircuitBreakerState.record_failure,
        CircuitBreakerState.should_allow_request, hopen]
      linarith
  · exact ⟨rfl, rfl⟩

/-- C2 witness: a fresh breaker driven through the scenario of the claim.
Three failures at times 1, 2, 3 open it; a request at time 10 is refused;
a request at time 34 (elapsed 31 > 30) is permitted; a failure recorded
at 34 keeps it open and a request at time 60 (elapsed 26) is refused
again; a success closes it with zero failures. -/
theorem circuit_breaker_state_machine_witness :
    (let s3 := (((({} : CircuitBreakerState).record_failure 1).record_failure
      2).record_failure 3)
     s3.is_open = true ∧
     s3.should_allow_request 10 = false ∧
     s3.should_allow_request 34 = true ∧
     (s3.record_failure 34).is_open = true ∧
     (s3.record_failure 34).should_allow_request 60 = false ∧
     (s3.record_failure 34).record_success.failures = 0 ∧
     (s3.record_failure 34).record_success.is_open = false) := by
  intro s3
  have hA := circuit_breaker_state_machine ({} : CircuitBreakerState) 1 2 3 0 0
  have hopen : s3.is_open = true := hA.1
  have hlf : s3.last_failure = some 3 := by decide
  have hB := circuit_breaker_state_machine s3 0 0 0 0 10
  have hC := circuit_breaker_state_machine s3 0 0 0 34 34
  have hD := (hC.2.2.1 hopen)
  have hE := circuit_breaker_state_machine (s3.record_failure 34) 0 0 0 0 0
  refine ⟨hopen, ?_, ?_, hD.1, ?_, hE.2.2.2⟩
  · exact ((hB.2.1 3 hopen hlf).1 (by norm_num [reset_timeout]))
  · exact ((hC.2.1 3 hopen hlf).2 (by norm_num [reset_timeout]))
  · exact hD.2.2 60 (by norm_num [reset_timeout])

/-! ## Distress lexicon (gatekeeper.py, is_distressed) -/

/-- The apostrophe character, built by code point to keep literals plain. -/
def apos : String := String.singleton (Char.ofNat 39)

/-- DISTRESS_INDICATORS from gatekeeper.py. -/
def DISTRESS_INDICATORS : List String :=
  ["help", "scared", "afraid", "worried", "anxious", "panic",
   "pain", "hurt", "can" ++ apos ++ "t", "cannot", "struggling", "terrible",
   "awful", "horrible", "worst", "emergency", "please",
   "dying", "die", "dead", "bad", "worse", "suffering"]

/-- Substring test on character lists: does hay start with needle. -/
def strStarts : List Char → List Char → Bool
  | _, [] => true
  | [], _ :: _ => false
  | c :: cs, d :: ds => c == d && strStarts cs ds

/-- Substring test on character lists: does needle occur inside hay
(the Python operator in on strings). -/
def strContains : List Char → List Char → Bool
  | [], needle => needle.isEmpty
  | c :: cs, needle => strStarts (c :: cs) needle || strContains cs needle

/-- Number of distinct distress-indicator words occurring in the lowered
text: sum(1 for word in DISTRESS_INDICATORS if word in text_lower). -/
def distress_count (text : String) : ℕ :=
  (DISTRESS_INDICATORS.filter
    (fun w => strContains (text.toList.map Char.toLower) w.toList)).length

/-- Urgency punctuation count: text.count of the exclamation mark plus
text.count of the question mark. -/
def urgency_marks (text : String) : ℕ :=
  (text.toList.filter (fun c => c == '!')).length +
    (text.toList.filter (fun c => c == '?')).length

/-- is_distressed from gatekeeper.py: empty text is never distressed;
otherwise at least 2 indicator words, or at least 1 indicator word
together with at least 2 urgency marks. -/
def is_distressed (text : String) : Bool :=
  if text = "" then false
  else
    decide (2 ≤ distress_count text) ||
      (decide (1 ≤ distress_count text) && decide (2 ≤ urgency_marks text))

/-! ## Fallback responses (fallback_responses.py) -/

/-- HARDCODED_EMERGENCY_CONTACT message string. -/
def EMERGENCY_CONTACT_MESSAGE : String :=
  "I" ++ apos ++ "m having trouble processing right now, but I hear that " ++
  "you may be in distress. Please contact a human caregiver or call " ++
  "emergency services if you need immediate help."

/-- HARDCODED_NEUTRAL_FALLBACK message string. -/
def NEUTRAL_FALLBACK_MESSAGE : String :=
  "I" ++ apos ++ "m here with you. Tell me more about how you" ++ apos ++
  "re feeling today."

/-- Python int() truncation toward zero on a rational. -/
def pyTrunc (q : ℚ) : ℤ := if q < 0 then -(⌊-q⌋) else ⌊q⌋

/-- First whitespace-separated token of a name, patient_name.split()[0]. -/
def firstToken (s : String) : String :=
  ((s.split Char.isWhitespace).filter (fun t => ¬ t.isEmpty)).headD ""

/-- Result record of get_vital_response_fallback. -/
structure VitalFallback where
  risk_level : String
  message : String
  action : Option String
  should_follow_up : Bool
  should_alert_clinician : Bool := false
deriving DecidableEq, Repr

/-- get_vital_response_fallback from fallback_responses.py: a canned
response selected by heart-rate band. -/
def get_vital_response_fallback (heart_rate : ℚ) (_hrv : Option ℚ)
    (patient_name : String) : VitalFallback :=
  let first_name := if patient_name = "there" then "there"
    else firstToken patient_name
  if 60 ≤ heart_rate ∧ heart_rate ≤ 100 then
    { risk_level := "LOW"
      message := "Good news, " ++ first_name ++ "! Your heart rate is " ++
        toString (pyTrunc heart_rate) ++
        " bpm, which looks healthy. Keep taking care of yourself!"
      action := none
      should_follow_up := false }
  else if heart_rate < 60 then
    { risk_level := "MEDIUM"
      message := "I" ++ apos ++ "m seeing your heart rate at " ++
        toString (pyTrunc heart_rate) ++
        " bpm, which is a bit low. Are you feeling lightheaded or dizzy " ++
        "at all?"
      action := some "ask_followup"
      should_follow_up := true }
  else if 100 < heart_rate ∧ heart_rate ≤ 120 then
    { risk_level := "MEDIUM"
      message := "I" ++ apos ++ "m seeing your heart rate at " ++
        toString (pyTrunc heart_rate) ++
        " bpm. Have you been active recently, or had any caffeine? Let" ++
        apos ++ "s take a moment to relax together."
      action := some "breathing_exercise"
      should_follow_up := true }
  else
    { risk_level := "HIGH"
      message := "Your heart rate is reading at " ++
        toString (pyTrunc heart_rate) ++
        " bpm, which is elevated. Are you experiencing any chest pain " ++
        "or shortness of breath?"
      action := some "clinical_alert"
      should_follow_up := true
      should_alert_clinician := true }

/-! ## Resilient LLM cascade (llm_client.py, ResilientLLMClient) -/

/-- Available LLM providers, from enum LLMProvider. -/
inductive LLMProvider
  | gemini_flash
  | groq
  | local_sentiment
  | hardcoded
deriving DecidableEq, Repr

/-- Environment-determined outcome of one Gemini call: the stripped
response text, a timeout, or a raised exception. -/
inductive GeminiOutcome
  | ok (text : String)
  | timeout
  | raised
deriving DecidableEq, Repr

/-- Environment-determined outcome of one Groq HTTP call: a response
with status code and stripped content, a timeout, or a raised exception
(network error). -/
inductive GroqOutcome
  | http (status : ℕ) (content : String)
  | timeout
  | raised
deriving DecidableEq, Repr

/-- Response metadata fields the cascade writes. -/
structure Metadata where
  should_alert : Bool := false
  vital_fallback : Option VitalFallback := none
deriving DecidableEq, Repr

/-- Standardized response record, from dataclass LLMResponse. -/
structure LLMResponse where
  success : Bool
  text : String
  provider : LLMProvider
  latency_ms : ℚ
  fallback_used : Bool := false
  fallback_reason : Option String := none
  sentiment : Option String := none
  metadata : Metadata := {}
deriving DecidableEq, Repr

/-- The two per-provider circuit breakers held by the client. -/
structure Breakers where
  gemini : CircuitBreakerState := {}
  groq : CircuitBreakerState := {}
deriving DecidableEq, Repr

/-- One cascade invocation environment: client configuration, the
outcome each remote provider would produce if called, the VADER
compound polarity score for the prompt (none when the analyzer is
unavailable), the wall-clock instant, and the measured latency. -/
structure CascadeEnv where
  gemini_client : Bool
  groq_api_key : Bool
  gemini_outcome : GeminiOutcome
  groq_outcome : GroqOutcome
  vader_compound : Option ℚ
  now : ℚ
  latency : ℚ
deriving DecidableEq, Repr

/-- Cascade tiers in their fixed order. -/
inductive Tier
  | primary
  | secondary
  | sentimentTier
  | staticTier
deriving DecidableEq, Repr

/-- Position of a tier in the cascade order. -/
def Tier.idx : Tier → ℕ
  | .primary => 1
  | .secondary => 2
  | .sentimentTier => 3
  | .staticTier => 4

/-- The tier a provider answers from. -/
def tierOf : LLMProvider → Tier
  | .gemini_flash => .primary
  | .groq => .secondary
  | .local_sentiment => .sentimentTier
  | .hardcoded => .staticTier

/-- _should_try_provider for Gemini: a client must exist and the
breaker must allow the request. -/
def should_try_gemini (env : CascadeEnv) (bs : Breakers) : Bool :=
  env.gemini_client && bs.gemini.should_allow_request env.now

/-- _should_try_provider for Groq: the API key must be set and the
breaker must allow the request. -/
def should_try_groq (env : CascadeEnv) (bs : Breakers) : Bool :=
  env.groq_api_key && bs.groq.should_allow_request env.now

/-- Observable result of one wrapped provider call: a returned value
(possibly None), or a raised timeout or other exception. -/
inductive CallResult
  | value (v : Option String)
  | timedOut
  | raisedExn
deriving DecidableEq, Repr

/-- _call_gemini: a successful call yields the stripped response text;
timeouts and other exceptions propagate to generate. -/
def call_gemini (env : CascadeEnv) : CallResult :=
  match env.gemini_outcome with
  | .ok t => .value (some t)
  | .timeout => .timedOut
  | .raised => .raisedExn

/-- _call_groq: an HTTP 200 yields the stripped message content; any
other status code logs and returns None without raising; timeouts and
network errors raise. -/
def call_groq (env : CascadeEnv) : CallResult :=
  match env.groq_outcome with
  | .http status content =>
      .value (if status = 200 then some content else none)
  | .timeout => .timedOut
  | .raised => .raisedExn

/-- _analyze_sentiment result record. -/
structure SentimentResult where
  is_distressed : Bool
  sentiment : String
  has_scores : Bool
deriving DecidableEq, Repr

/-- _analyze_sentiment: with VADER available, a compound score at most
-0.3 is negative and distressed, at least 0.3 is positive, and a
neutral score defers to the keyword check; without VADER the keyword
check alone decides. -/
def analyze_sentiment (text : String) (vc : Option ℚ) : SentimentResult :=
  match vc with
  | some compound =>
      if compound ≤ -(3/10) then
        { is_distressed := true, sentiment := "negative", has_scores := true }
      else if (3/10) ≤ compound then
        { is_distressed := false, sentiment := "positive", has_scores := true }
      else
        { is_distressed := is_distressed text, sentiment := "neutral",
          has_scores := true }
  | none =>
      let d := is_distressed text
      { is_distressed := d
        sentiment := if d then "negative" else "neutral"
        has_scores := false }

/-- TIER 1 of generate: try Gemini when permitted. Returns the response
if this tier answered, the updated breakers, and whether the tier was
attempted. A falsy (empty) response falls through without recording
either success or failure; timeouts and exceptions record a failure. -/
def tier1 (env : CascadeEnv) (bs : Breakers) :
    Option LLMResponse × Breakers × List Tier :=
  if should_try_gemini env bs then
    match call_gemini env with
    | .value (some t) =>
        if t ≠ "" then
          (some { success := true, text := t, provider := .gemini_flash,
                  latency_ms := env.latency, fallback_used := false },
           { bs with gemini := bs.gemini.record_success }, [Tier.primary])
        else (none, bs, [Tier.primary])
    | .value none => (none, bs, [Tier.primary])
    | .timedOut =>
        (none, { bs with gemini := bs.gemini.record_failure env.now },
         [Tier.primary])
    | .raisedExn =>
        (none, { bs with gemini := bs.gemini.record_failure env.now },
         [Tier.primary])
  else (none, bs, [])

/-- TIER 1.5 of generate: try Groq when permitted; same recording
discipline as tier 1, with fallback_used set and reason
gemini_unavailable on success. -/
def tier2 (env : CascadeEnv) (bs : Breakers) :
    Option LLMResponse × Breakers × List Tier :=
  if should_try_groq env bs then
    match call_groq env with
    | .value (some t) =>
        if t ≠ "" then
          (some { success := true, text := t, provider := .groq,
                  latency_ms := env.latency, fallback_used := true,
                  fallback_reason := some "gemini_unavailable" },
           { bs with groq := bs.groq.record_success }, [Tier.secondary])
        else (none, bs, [Tier.secondary])
    | .value none => (none, bs, [Tier.secondary])
    | .timedOut =>
        (none, { bs with groq := bs.groq.record_failure env.now },
         [Tier.secondary])
    | .raisedExn =>
        (none, { bs with groq := bs.groq.record_failure env.now },
         [Tier.secondary])
  else (none, bs, [])

/-- TIERS 2 and 3 of the numbered comments in generate: local sentiment
analysis, then the hardcoded neutral fallback. Always answers. -/
def tier34 (prompt : String) (env : CascadeEnv) : LLMResponse × Tier :=
  let s := analyze_sentiment prompt env.vader_compound
  if s.is_distressed then
    ({ success := true, text := EMERGENCY_CONTACT_MESSAGE,
       provider := .local_sentiment, latency_ms := env.latency,
       fallback_used := true, fallback_reason := some "all_llm_unavailable",
       sentiment := some "negative",
       metadata := { should_alert := true } }, Tier.sentimentTier)
  else
    ({ success := true, text := NEUTRAL_FALLBACK_MESSAGE,
       provider := .hardcoded, latency_ms := env.latency,
       fallback_used := true, fallback_reason := some "all_llm_unavailable",
       sentiment := some "neutral", metadata := {} }, Tier.staticTier)

/-- Result of one cascade invocation: the single response, the updated
breakers, and the ordered list of tiers that were attempted (the last
entry is the tier that answered). -/
structure CascadeResult where
  resp : LLMResponse
  breakers : Breakers
  attempts : List Tier
deriving DecidableEq, Repr

/-- ResilientLLMClient.generate: the cascading fallback. -/
def generate (prompt : String) (env : CascadeEnv) (bs : Breakers) :
    CascadeResult :=
  match tier1 env bs with
  | (some r, bs1, a1) => ⟨r, bs1, a1⟩
  | (none, bs1, a1) =>
    match tier2 env bs1 with
    | (some r, bs2, a2) => ⟨r, bs2, a1 ++ a2⟩
    | (none, bs2, a2) =>
        let (r, t) := tier34 prompt env
        ⟨r, bs2, a1 ++ a2 ++ (if t = Tier.staticTier
          then [Tier.sentimentTier, Tier.staticTier] else [t])⟩

/-- Strict ordering check on an attempt list. -/
def attemptsOrdered : List Tier → Bool
  | [] => true
  | [_] => true
  | a :: b :: r => decide (a.idx < b.idx) && attemptsOrdered (b :: r)

/-! ## Structural lemmas about the cascade tiers -/

lemma tier1_not_tried {env : CascadeEnv} {bs : Breakers}
    (h : should_try_gemini env bs = false) : tier1 env bs = (none, bs, []) := by
  simp [tier1, h]

lemma tier2_not_tried {env : CascadeEnv} {bs : Breakers}
    (h : should_try_groq env bs = false) : tier2 env bs = (none, bs, []) := by
  simp [tier2, h]

lemma tier1_cases (env : CascadeEnv) (bs : Breakers) :
    (∃ r bs1, tier1 env bs = (some r, bs1, [Tier.primary]) ∧
      r.success = true ∧ r.provider = .gemini_flash ∧
      r.fallback_used = false ∧ bs1.groq = bs.groq) ∨
    (∃ bs1, tier1 env bs = (none, bs1, [Tier.primary]) ∧
      bs1.groq = bs.groq) ∨
    tier1 env bs = (none, bs, []) := by
  unfold tier1
  split
  · rcases call_gemini env with v | _ | _
    · rcases v with _ | t
      · right; left
        exact ⟨bs, rfl, rfl⟩
      · by_cases ht : t = ""
        · right; left
          refine ⟨bs, ?_, rfl⟩
          simp [ht]
        · left
          refine ⟨{ success := true, text := t,
                    provider := LLMProvider.gemini_flash,
                    latency_ms := env.latency,
                    fallback_used := false },
            { gemini := bs.gemini.record_success, groq := bs.groq },
            ?_, rfl, rfl, rfl, rfl⟩
          simp [ht]
    · right; left
      exact ⟨_, rfl, rfl⟩
    · right; left
      exact ⟨_, rfl, rfl⟩
  · right; right
    rfl

lemma tier2_cases (env : CascadeEnv) (bs : Breakers) :
    (∃ r bs1, tier2 env bs = (some r, bs1, [Tier.secondary]) ∧
      r.success = true ∧ r.provider = .groq ∧ r.fallback_used = true ∧
      bs1.gemini = bs.gemini) ∨
    (∃ bs1, tier2 env bs = (none, bs1, [Tier.secondary]) ∧
      bs1.gemini = bs.gemini) ∨
    tier2 env bs = (none, bs, []) := by
  unfold tier2
  split
  · rcases call_groq env with v | _ | _
    · rcases v with _ | t
      · right; left
        exact ⟨bs, rfl, rfl⟩
      · by_cases ht : t = ""
        · right; left
          refine ⟨bs, ?_, rfl⟩
          simp [ht]
        · left
          refine ⟨{ success := true, text := t,
                    provider := LLMProvider.groq,
                    latency_ms := env.latency,
                    fallback_used := true,
                    fallback_reason := some "gemini_unavailable" },
            { gemini := bs.gemini, groq := bs.groq.record_success },
            ?_, rfl, rfl, rfl, rfl⟩
          simp [ht]
    · right; left
      exact ⟨_, rfl, rfl⟩
    · right; left
      exact ⟨_, rfl, rfl⟩
  · right; right
    rfl

lemma tier34_shape (prompt : String) (env : CascadeEnv) :
    (tier34 prompt env =
      ({ success := true, text := EMERGENCY_CONTACT_MESSAGE,
         provider := .local_sentiment, latency_ms := env.latency,
         fallback_used := true, fallback_reason := some "all_llm_unavailable",
         sentiment := some "negative",
         metadata := { should_alert := true } }, Tier.sentimentTier)) ∨
    (tier34 prompt env =
      ({ success := true, text := NEUTRAL_FALLBACK_MESSAGE,
         provider := .hardcoded, latency_ms := env.latency,
         fallback_used := true, fallback_reason := some "all_llm_unavailable",
         sentiment := some "neutral", metadata := {} }, Tier.staticTier)) := by
  unfold tier34
  by_cases hd : (analyze_sentiment prompt env.vader_compound).is_distressed
  · left; simp [hd]
  · right; simp [hd]

/-- C1: ResilientLLMClient.generate always returns exactly one response
(it is a total function of its inputs and every return path sets
success to true); the tiers recorded in the attempt trace appear in the
strict cascade order primary, secondary, local sentiment, static; the
tier that produced the response is the last attempted one, so no tier
is attempted after an earlier tier succeeds; and when both remote tiers
are unavailable or circuit-open, the response still has success true
and fallback_used true. -/
theorem cascade_generate_contract (prompt : String) (env : CascadeEnv)
    (bs : Breakers) :
    ((generate prompt env bs).resp.success = true) ∧
    (attemptsOrdered (generate prompt env bs).attempts = true) ∧
    ((generate prompt env bs).attempts.getLast? =
      some (tierOf (generate prompt env bs).resp.provider)) ∧
    (should_try_gemini env bs = false → should_try_groq env bs = false →
      (generate prompt env bs).resp.fallback_used = true) := by
  rcases tier1_cases env bs with ⟨r1, bs1, h1, hs1, hp1, _, _⟩ |
    ⟨bs1, h1, hpres1⟩ | h1
  · have hgen : generate prompt env bs = ⟨r1, bs1, [Tier.primary]⟩ := by
      simp [generate, h1]
    refine ⟨by rw [hgen]; exact hs1, by rw [hgen]; rfl, ?_, ?_⟩
    · rw [hgen, hp1]
      rfl
    · intro hgem _
      have hnt := tier1_not_tried hgem
      rw [h1] at hnt
      simp at hnt
  · -- Gemini attempted but yielded nothing
    rcases tier2_cases env bs1 with ⟨r2, bs2, h2, hs2, hp2, _, _⟩ |
      ⟨bs2, h2, _⟩ | h2
    · have hgen : generate prompt env bs =
          ⟨r2, bs2, [Tier.primary, Tier.secondary]⟩ := by
        simp [generate, h1, h2]
      refine ⟨by rw [hgen]; exact hs2, by rw [hgen]; rfl, ?_, ?_⟩
      · rw [hgen, hp2]
        rfl
      · intro hgem _
        have hnt := tier1_not_tried hgem
        rw [h1] at hnt
        simp at hnt
    · rcases tier34_shape prompt env with h34 | h34
      · have hgen : generate prompt env bs = ⟨(tier34 prompt env).1, bs2,
            [Tier.primary, Tier.secondary, Tier.sentimentTier]⟩ := by
          simp [generate, h1, h2, h34]
        rw [hgen, h34]
        exact ⟨rfl, rfl, rfl, fun _ _ => rfl⟩
      · have hgen : generate prompt env bs = ⟨(tier34 prompt env).1, bs2,
            [Tier.primary, Tier.secondary, Tier.sentimentTier,
             Tier.staticTier]⟩ := by
          simp [generate, h1, h2, h34]
        rw [hgen, h34]
        exact ⟨rfl, rfl, rfl, fun _ _ => rfl⟩
    · rcases tier34_shape prompt env with h34 | h34
      · have hgen : generate prompt env bs = ⟨(tier34 prompt env).1, bs1,
            [Tier.primary, Tier.sentimentTier]⟩ := by
          simp [generate, h1, h2, h34]
        rw [hgen, h34]
        exact ⟨rfl, rfl, rfl, fun _ _ => rfl⟩
      · have hgen : generate prompt env bs = ⟨(tier34 prompt env).1, bs1,
            [Tier.primary, Tier.sentimentTier, Tier.staticTier]⟩ := by
          simp [generate, h1, h2, h34]
        rw [hgen, h34]
        exact ⟨rfl, rfl, rfl, fun _ _ => rfl⟩
  · -- Gemini not attempted
    rcases tier2_cases env bs with ⟨r2, bs2, h2, hs2, hp2, _, _⟩ |
      ⟨bs2, h2, _⟩ | h2
    · have hgen : generate prompt env bs = ⟨r2, bs2, [Tier.secondary]⟩ := by
        simp [generate, h1, h2]
      refine ⟨by rw [hgen]; exact hs2, by rw [hgen]; rfl, ?_, ?_⟩
      · rw [hgen, hp2]
        rfl
      · intro _ hgr
        have hnt := tier2_not_tried hgr
        rw [h2] at hnt
        simp at hnt
    · rcases tier34_shape prompt env with h34 | h34
      · have hgen : generate prompt env bs = ⟨(tier34 prompt env).1, bs2,
            [Tier.secondary, Tier.sentimentTier]⟩ := by
          simp [generate, h1, h2, h34]
        rw [hgen, h34]
        exact ⟨rfl, rfl, rfl, fun _ _ => rfl⟩
      · have hgen : generate prompt env bs = ⟨(tier34 prompt env).1, bs2,
            [Tier.secondary, Tier.sentimentTier, Tier.staticTier]⟩ := by
          simp [generate, h1, h2, h34]
        rw [hgen, h34]
        exact ⟨rfl, rfl, rfl, fun _ _ => rfl⟩
    · rcases tier34_shape prompt env with h34 | h34
      · have hgen : generate prompt env bs = ⟨(tier34 prompt env).1, bs,
            [Tier.sentimentTier]⟩ := by
          simp [generate, h1, h2, h34]
        rw [hgen, h34]
        exact ⟨rfl, rfl, rfl, fun _ _ => rfl⟩
      · have hgen : generate prompt env bs = ⟨(tier34 prompt env).1, bs,
            [Tier.sentimentTier, Tier.staticTier]⟩ := by
          simp [generate, h1, h2, h34]
        rw [hgen, h34]
        exact ⟨rfl, rfl, rfl, fun _ _ => rfl⟩

/-- C1 witness: with no Gemini client and no Groq key, both remote
tiers are blocked and the cascade still returns a successful
fallback response with an ordered attempt trace. -/
theorem cascade_generate_contract_witness :
    (let env : CascadeEnv :=
      { gemini_client := false, groq_api_key := false,
        gemini_outcome := .timeout, groq_outcome := .timeout,
        vader_compound := some 0, now := 0, latency := 12 }
     (generate "hello" env {}).resp.success = true ∧
     (generate "hello" env {}).resp.fallback_used = true ∧
     attemptsOrdered (generate "hello" env {}).attempts = true) := by
  intro env
  have h := cascade_generate_contract "hello" env {}
  exact ⟨h.1, h.2.2.2 (by decide) (by decide), h.2.1⟩

/-- The boolean distress test agrees with its arithmetic reading. -/
lemma is_distressed_true_iff (t : String) :
    is_distressed t = true ↔
      (2 ≤ distress_count t ∨
        (1 ≤ distress_count t ∧ 2 ≤ urgency_marks t)) := by
  unfold is_distressed
  split
  · rename_i h
    subst h
    decide
  · simp

/-- Both remote tiers yield no response in this invocation. -/
def remote_tiers_fail (env : CascadeEnv) (bs : Breakers) : Prop :=
  (tier1 env bs).1 = none ∧ (tier2 env (tier1 env bs).2.1).1 = none

/-- When both remote tiers fail, the returned response is the one
produced by the local sentiment / static stage. -/
lemma generate_exhausted (prompt : String) (env : CascadeEnv)
    (bs : Breakers) (hrf : remote_tiers_fail env bs) :
    (generate prompt env bs).resp = (tier34 prompt env).1 := by
  obtain ⟨hf1, hf2⟩ := hrf
  rcases tier1_cases env bs with ⟨r1, bs1, h1, _⟩ | ⟨bs1, h1, _⟩ | h1
  · rw [h1] at hf1
    simp at hf1
  · have hb : (tier1 env bs).2.1 = bs1 := by rw [h1]
    rw [hb] at hf2
    rcases tier2_cases env bs1 with ⟨r2, bs2, h2, _⟩ | ⟨bs2, h2, _⟩ | h2
    · rw [h2] at hf2
      simp at hf2
    · rcases tier34_shape prompt env with h34 | h34 <;>
        simp [generate, h1, h2, h34]
    · rcases tier34_shape prompt env with h34 | h34 <;>
        simp [generate, h1, h2, h34]
  · have hb : (tier1 env bs).2.1 = bs := by rw [h1]
    rw [hb] at hf2
    rcases tier2_cases env bs with ⟨r2, bs2, h2, _⟩ | ⟨bs2, h2, _⟩ | h2
    · rw [h2] at hf2
      simp at hf2
    · rcases tier34_shape prompt env with h34 | h34 <;>
        simp [generate, h1, h2, h34]
    · rcases tier34_shape prompt env with h34 | h34 <;>
        simp [generate, h1, h2, h34]

/-- C4: when both remote tiers fail and the local sentiment stage flags
distress (compound score at most -0.3, or a neutral score with the
lexicon check firing: at least 2 distress-indicator words, or at least 1
such word together with at least 2 urgency marks), the cascade returns
the fixed emergency message from the local_sentiment provider with
fallback_used true and metadata should_alert true; with the same
failures but no distress flag, it returns the static-tier neutral
message with fallback_used true and no alert flag. -/
theorem sentiment_distress_gate (prompt : String) (env : CascadeEnv)
    (bs : Breakers) (c : ℚ) (hv : env.vader_compound = some c)
    (hrf : remote_tiers_fail env bs) :
    ((c ≤ -(3/10) ∨ (-(3/10) < c ∧ c < 3/10 ∧
        (2 ≤ distress_count prompt ∨
          (1 ≤ distress_count prompt ∧ 2 ≤ urgency_marks prompt)))) →
      (generate prompt env bs).resp.provider = .local_sentiment ∧
      (generate prompt env bs).resp.text = EMERGENCY_CONTACT_MESSAGE ∧
      (generate prompt env bs).resp.fallback_used = true ∧
      (generate prompt env bs).resp.metadata.should_alert = true) ∧
    ((-(3/10) < c ∧ (3/10 ≤ c ∨ is_distressed prompt = false)) →
      (generate prompt env bs).resp.provider = .hardcoded ∧
      (generate prompt env bs).resp.text = NEUTRAL_FALLBACK_MESSAGE ∧
      (generate prompt env bs).resp.fallback_used = true ∧
      (generate prompt env bs).resp.metadata.should_alert = false) := by
  have hres := generate_exhausted prompt env bs hrf
  constructor
  · rintro (hneg | ⟨hgt, hlt, hlex⟩)
    · have hd : (analyze_sentiment prompt env.vader_compound).is_distressed
          = true := by
        rw [hv]
        unfold analyze_sentiment
        simp [hneg]
      rw [hres]
      refine ⟨?_, ?_, ?_, ?_⟩ <;> simp [tier34, hd]
    · have hd : (analyze_sentiment prompt env.vader_compound).is_distressed
          = true := by
        rw [hv]
        unfold analyze_sentiment
        have hn1 : ¬ (c ≤ -(3/10)) := by linarith
        have hn2 : ¬ ((3/10 : ℚ) ≤ c) := by linarith
        simp [hn1, hn2]
        exact (is_distressed_true_iff prompt).mpr hlex
      rw [hres]
      refine ⟨?_, ?_, ?_, ?_⟩ <;> simp [tier34, hd]
  · rintro ⟨hgt, hnd⟩
    have hn1 : ¬ (c ≤ -(3/10)) := by linarith
    have hd : (analyze_sentiment prompt env.vader_compound).is_distressed
        = false := by
      rw [hv]
      unfold analyze_sentiment
      rcases hnd with hpos | hlexf
      · simp [hn1, hpos]
      · by_cases hp : (3/10 : ℚ) ≤ c
        · simp [hn1, hp]
        · simp [hn1, hp, hlexf]
    rw [hres]
    refine ⟨?_, ?_, ?_, ?_⟩ <;> simp [tier34, hd]

/-- C4 witness: with both providers unconfigured, a neutral compound
score of 0 and the prompt containing two distress words routes to the
emergency message with an alert; the prompt hello routes to the
neutral static message with no alert. -/
theorem sentiment_distress_gate_witness :
    (let env : CascadeEnv :=
      { gemini_client := false, groq_api_key := false,
        gemini_outcome := .timeout, groq_outcome := .timeout,
        vader_compound := some 0, now := 0, latency := 3 }
     ((generate "please help" env {}).resp.provider =
        LLMProvider.local_sentiment ∧
      (generate "please help" env {}).resp.metadata.should_alert = true) ∧
     ((generate "hello" env {}).resp.provider = LLMProvider.hardcoded ∧
      (generate "hello" env {}).resp.metadata.should_alert = false)) := by
  intro env
  have h1 := sentiment_distress_gate "please help" env {} 0 (by decide)
    (by constructor <;> decide)
  have h2 := sentiment_distress_gate "hello" env {} 0 (by decide)
    (by constructor <;> decide)
  have ha := h1.1 (Or.inr ⟨by norm_num, by norm_num, by decide⟩)
  have hb := h2.2 ⟨by norm_num, Or.inr (by decide)⟩
  exact ⟨⟨ha.1, ha.2.2.2⟩, ⟨hb.1, hb.2.2.2⟩⟩

/-! ## C5: recording of transient provider failures -/

lemma tier1_timeout_eq {env : CascadeEnv} {bs : Breakers}
    (h : should_try_gemini env bs = true)
    (ho : env.gemini_outcome = GeminiOutcome.timeout) :
    tier1 env bs =
      (none, { bs with gemini := bs.gemini.record_failure env.now },
       [Tier.primary]) := by
  simp [tier1, h, call_gemini, ho]

lemma tier1_raised_eq {env : CascadeEnv} {bs : Breakers}
    (h : should_try_gemini env bs = true)
    (ho : env.gemini_outcome = GeminiOutcome.raised) :
    tier1 env bs =
      (none, { bs with gemini := bs.gemini.record_failure env.now },
       [Tier.primary]) := by
  simp [tier1, h, call_gemini, ho]

lemma tier2_timeout_eq {env : CascadeEnv} {bs : Breakers}
    (h : should_try_groq env bs = true)
    (ho : env.groq_outcome = GroqOutcome.timeout) :
    tier2 env bs =
      (none, { bs with groq := bs.groq.record_failure env.now },
       [Tier.secondary]) := by
  simp [tier2, h, call_groq, ho]

lemma tier2_raised_eq {env : CascadeEnv} {bs : Breakers}
    (h : should_try_groq env bs = true)
    (ho : env.groq_outcome = GroqOutcome.raised) :
    tier2 env bs =
      (none, { bs with groq := bs.groq.record_failure env.now },
       [Tier.secondary]) := by
  simp [tier2, h, call_groq, ho]

lemma tier2_non200_eq {env : CascadeEnv} {bs : Breakers} {st : ℕ}
    {content : String} (h : should_try_groq env bs = true)
    (ho : env.groq_outcome = GroqOutcome.http st content) (hs : st ≠ 200) :
    tier2 env bs = (none, bs, [Tier.secondary]) := by
  simp [tier2, h, call_groq, ho, hs]

/-- C5 counterexample: the secondary provider is attempted and answers
with HTTP 500 — a non-200 response — yet its circuit breaker records no
failure (the failure count stays 0 and the breaker state is unchanged),
while the cascade proceeds to the static tier. This refutes the claim
that every non-200 HTTP response is recorded as a failure on that
provider breaker. -/
theorem non200_breaker_counterexample :
    (let env : CascadeEnv :=
      { gemini_client := false, groq_api_key := true,
        gemini_outcome := .timeout, groq_outcome := .http 500 "",
        vader_compound := some 0, now := 100, latency := 5 }
     let r := generate "hello" env {}
     should_try_groq env {} = true ∧
     r.attempts = [Tier.secondary, Tier.sentimentTier, Tier.staticTier] ∧
     r.breakers.groq.failures = 0 ∧
     r.breakers.groq = ({} : CircuitBreakerState) ∧
     r.resp.success = true ∧
     r.resp.provider = LLMProvider.hardcoded) := by
  intro env r
  have h1 : tier1 env {} = (none, {}, []) := tier1_not_tried (by decide)
  have htry : should_try_groq env ({} : Breakers) = true := by decide
  have h2 : tier2 env {} = (none, {}, [Tier.secondary]) :=
    tier2_non200_eq htry rfl (by decide)
  have hd : (analyze_sentiment "hello" env.vader_compound).is_distressed
      = false := by
    show (analyze_sentiment "hello" (some 0)).is_distressed = false
    simp only [analyze_sentiment]
    rw [if_neg (by norm_num), if_neg (by norm_num)]
    decide
  have h34 : tier34 "hello" env =
      ({ success := true, text := NEUTRAL_FALLBACK_MESSAGE,
         provider := .hardcoded, latency_ms := env.latency,
         fallback_used := true,
         fallback_reason := some "all_llm_unavailable",
         sentiment := some "neutral", metadata := {} },
       Tier.staticTier) := by
    simp [tier34, hd]
  have hgen : r =
      ⟨{ success := true, text := NEUTRAL_FALLBACK_MESSAGE,
         provider := .hardcoded, latency_ms := env.latency,
         fallback_used := true,
         fallback_reason := some "all_llm_unavailable",
         sentiment := some "neutral", metadata := {} },
       {}, [Tier.secondary, Tier.sentimentTier, Tier.staticTier]⟩ := by
    show generate "hello" env {} = _
    simp [generate, h1, h2, h34]
  rw [hgen]
  exact ⟨htry, rfl, rfl, rfl, rfl, rfl⟩

/-- C5 amended: a timeout or raised exception (network error) on an
attempted remote provider is recorded as a failure on that provider
circuit breaker and the cascade proceeds to a later tier, still
returning success; a non-200 HTTP response from the secondary provider
also falls through to the next tier without surfacing an error, but is
not recorded on the breaker. -/
theorem remote_failure_recording (prompt : String) (env : CascadeEnv)
    (bs : Breakers) :
    (should_try_gemini env bs = true →
      (env.gemini_outcome = GeminiOutcome.timeout ∨
        env.gemini_outcome = GeminiOutcome.raised) →
      (generate prompt env bs).breakers.gemini =
        bs.gemini.record_failure env.now ∧
      (generate prompt env bs).resp.provider ≠ .gemini_flash ∧
      (generate prompt env bs).resp.success = true) ∧
    ((tier1 env bs).1 = none →
      should_try_groq env (tier1 env bs).2.1 = true →
      (env.groq_outcome = GroqOutcome.timeout ∨
        env.groq_outcome = GroqOutcome.raised) →
      (generate prompt env bs).breakers.groq =
        ((tier1 env bs).2.1).groq.record_failure env.now ∧
      (generate prompt env bs).resp.provider ≠ .groq ∧
      (generate prompt env bs).resp.success = true) ∧
    ((tier1 env bs).1 = none →
      should_try_groq env (tier1 env bs).2.1 = true →
      (∀ st content, env.groq_outcome = GroqOutcome.http st content →
        st ≠ 200 →
        (generate prompt env bs).breakers.groq = ((tier1 env bs).2.1).groq ∧
        (generate prompt env bs).resp.success = true ∧
        ((generate prompt env bs).resp.provider = .local_sentiment ∨
          (generate prompt env bs).resp.provider = .hardcoded))) := by
  refine ⟨?_, ?_, ?_⟩
  · intro htry hout
    have h1 : tier1 env bs =
        (none, { bs with gemini := bs.gemini.record_failure env.now },
         [Tier.primary]) := by
      rcases hout with ho | ho
      · exact tier1_timeout_eq htry ho
      · exact tier1_raised_eq htry ho
    rcases tier2_cases env
        { bs with gemini := bs.gemini.record_failure env.now } with
      ⟨r2, bs2, h2, hs2, hp2, _, hpres2⟩ | ⟨bs2, h2, hpres2⟩ | h2
    · refine ⟨?_, ?_, ?_⟩ <;> simp [generate, h1, h2, hpres2, hp2, hs2]
    · rcases tier34_shape prompt env with h34 | h34 <;>
      · refine ⟨?_, ?_, ?_⟩ <;> simp [generate, h1, h2, h34, hpres2]
    · rcases tier34_shape prompt env with h34 | h34 <;>
      · refine ⟨?_, ?_, ?_⟩ <;> simp [generate, h1, h2, h34]
  · intro hf1 htry hout
    rcases tier1_cases env bs with ⟨r1, bs1, h1, _⟩ | ⟨bs1, h1, _⟩ | h1
    · rw [h1] at hf1
      simp at hf1
    · have hb : (tier1 env bs).2.1 = bs1 := by rw [h1]
      rw [hb] at htry ⊢
      have h2 : tier2 env bs1 =
          (none, { bs1 with groq := bs1.groq.record_failure env.now },
           [Tier.secondary]) := by
        rcases hout with ho | ho
        · exact tier2_timeout_eq htry ho
        · exact tier2_raised_eq htry ho
      rcases tier34_shape prompt env with h34 | h34 <;>
      · refine ⟨?_, ?_, ?_⟩ <;> simp [generate, h1, h2, h34]
    · have hb : (tier1 env bs).2.1 = bs := by rw [h1]
      rw [hb] at htry ⊢
      have h2 : tier2 env bs =
          (none, { bs with groq := bs.groq.record_failure env.now },
           [Tier.secondary]) := by
        rcases hout with ho | ho
        · exact tier2_timeout_eq htry ho
        · exact tier2_raised_eq htry ho
      rcases tier34_shape prompt env with h34 | h34 <;>
      · refine ⟨?_, ?_, ?_⟩ <;> simp [generate, h1, h2, h34]
  · intro hf1 htry st content ho hst
    rcases tier1_cases env bs with ⟨r1, bs1, h1, _⟩ | ⟨bs1, h1, _⟩ | h1
    · rw [h1] at hf1
      simp at hf1
    · have hb : (tier1 env bs).2.1 = bs1 := by rw [h1]
      rw [hb] at htry ⊢
      have h2 : tier2 env bs1 = (none, bs1, [Tier.secondary]) :=
        tier2_non200_eq htry ho hst
      rcases tier34_shape prompt env with h34 | h34 <;>
      · refine ⟨?_, ?_, ?_⟩ <;> simp [generate, h1, h2, h34]
    · have hb : (tier1 env bs).2.1 = bs := by rw [h1]
      rw [hb] at htry ⊢
      have h2 : tier2 env bs = (none, bs, [Tier.secondary]) :=
        tier2_non200_eq htry ho hst
      rcases tier34_shape prompt env with h34 | h34 <;>
      · refine ⟨?_, ?_, ?_⟩ <;> simp [generate, h1, h2, h34]

/-- C5 witness for the amended theorem: with a configured Gemini client
whose call times out at time 7 on a fresh breaker, the failure is
recorded (failure count becomes 1) and the cascade still answers
successfully from a later tier. -/
theorem remote_failure_recording_witness :
    (let env : CascadeEnv :=
      { gemini_client := true, groq_api_key := false,
        gemini_outcome := .timeout, groq_outcome := .timeout,
        vader_compound := none, now := 7, latency := 2 }
     (generate "hello" env {}).breakers.gemini =
        ({} : CircuitBreakerState).record_failure 7 ∧
     (generate "hello" env {}).breakers.gemini.failures = 1 ∧
     (generate "hello" env {}).resp.provider ≠ LLMProvider.gemini_flash ∧
     (generate "hello" env {}).resp.success = true) := by
  intro env
  have h := (remote_failure_recording "hello" env {}).1 (by decide)
    (Or.inl rfl)
  refine ⟨h.1, ?_, h.2.1, h.2.2⟩
  rw [h.1]
  decide

/-! ## rPPG vitals estimator (camera.py, HeartRateMonitor)

The scipy/numpy numeric kernels called by the pipeline (polynomial
trend fitting, standard deviation, Butterworth filtering, FFT
magnitudes, peak finding) are external collaborators, supplied as an
explicit SciLib oracle; every piece of control flow and arithmetic
written in camera.py itself is embedded exactly over exact rationals. -/

/-- Python int() on the nonnegative quantities used by the pipeline. -/
def pyInt (q : ℚ) : ℕ := (⌊q⌋).toNat

/-- numpy mean of a list. -/
def npMean (l : List ℚ) : ℚ := l.sum / l.length

/-- Insert into a sorted list, keeping order. -/
def insertSorted (x : ℚ) : List ℚ → List ℚ
  | [] => [x]
  | y :: ys => if x ≤ y then x :: y :: ys else y :: insertSorted x ys

/-- Insertion sort, ascending. -/
def sortRat (l : List ℚ) : List ℚ := l.foldr insertSorted []

/-- numpy median: middle element of the sorted list, or the mean of the
two middle elements for even length. -/
def npMedian (l : List ℚ) : ℚ :=
  let s := sortRat l
  let n := s.length
  if n % 2 = 1 then s.getD (n / 2) 0
  else (s.getD (n / 2 - 1) 0 + s.getD (n / 2) 0) / 2

/-- numpy diff: successive differences. -/
def npDiff (l : List ℚ) : List ℚ := (l.zip l.tail).map (fun p => p.2 - p.1)

/-- Python negative slicing l[-n:], also the state of a deque with
maxlen n after appends. -/
def takeLast (n : ℕ) (l : List ℚ) : List ℚ := l.drop (l.length - n)

/-- numpy min (0 for the empty list, which the pipeline never hits). -/
def listMin : List ℚ → ℚ
  | [] => 0
  | x :: xs => xs.foldl min x

/-- numpy max (0 for the empty list, which the pipeline never hits). -/
def listMax : List ℚ → ℚ
  | [] => 0
  | x :: xs => xs.foldl max x

/-- External scipy/numpy collaborators of calculate_vitals, as a
function oracle: the degree-2 polynomial trend (np.polyval of
np.polyfit), np.std, the Butterworth bandpass filter (none when
scipy raises and the code falls back to the unfiltered signal), the
FFT magnitude spectrum of the Hann-windowed signal (one magnitude per
bin), and scipy.signal find_peaks with the distance/prominence/height
settings of the source. -/
structure SciLib where
  trend : List ℚ → List ℚ
  std : List ℚ → ℚ
  bandpass : List ℚ → ℚ → Option (List ℚ)
  fftMags : List ℚ → ℚ → List ℚ
  findPeaks : List ℚ → ℕ → List ℕ

/-- self.lowcut = 0.7 Hz. -/
def lowcut : ℚ := 7/10

/-- self.highcut = 3.0 Hz. -/
def highcut : ℚ := 3

/-- detrend_signal: unchanged below 10 samples, else subtract the
fitted degree-2 trend pointwise. -/
def detrend_signal (lib : SciLib) (s : List ℚ) : List ℚ :=
  if s.length < 10 then s
  else (s.zip (lib.trend s)).map (fun p => p.1 - p.2)

/-- The normalization step of calculate_vitals:
(signal - mean) / (std + 1e-10). -/
def normalizeSignal (lib : SciLib) (s : List ℚ) : List ℚ :=
  let m := npMean s
  let sd := lib.std s
  s.map (fun v => (v - m) / (sd + 1/10000000000))

/-- np.fft.fftfreq(n, 1/fs): bin k maps to k*fs/n for k below the
midpoint and to (k-n)*fs/n beyond it. -/
def fftfreq (n : ℕ) (fs : ℚ) : List ℚ :=
  (List.range n).map (fun k =>
    if k < (n + 1) / 2 then (k : ℚ) * fs / n else ((k : ℚ) - n) * fs / n)

/-- np.argmax over (frequency, magnitude) pairs: the frequency of the
first maximal magnitude; none for the empty list. -/
def peakFreq : List (ℚ × ℚ) → Option ℚ
  | [] => none
  | p :: ps =>
      some ((ps.foldl (fun best q => if best.2 < q.2 then q else best) p).1)

/-- calculate_hr_fft: restrict the spectrum to bins inside
[lowcut, highcut], take the arg-max magnitude bin, convert its
frequency to BPM; none when no bin lies in the band. -/
def calculate_hr_fft (lib : SciLib) (signal : List ℚ) (fs : ℚ) :
    Option ℚ :=
  let yf := lib.fftMags signal fs
  let pairs := (fftfreq signal.length fs).zip yf
  let inBand := pairs.filter
    (fun p => decide (lowcut ≤ p.1) && decide (p.1 ≤ highcut))
  (peakFreq inBand).map (fun f => f * 60)

/-- calculate_hr_peaks: normalize the signal to [0,1], find peaks with
min distance int(fs*0.4), require at least 3 peaks, keep inter-peak
intervals strictly inside (0.33, 1.5) s, require at least 2, report
60 / median interval together with the peak indices. -/
def calculate_hr_peaks (lib : SciLib) (signal : List ℚ) (fs : ℚ) :
    Option ℚ × Option (List ℕ) :=
  let min_distance := pyInt (fs * (4/10))
  let mn := listMin signal
  let mx := listMax signal
  let signal_norm := signal.map (fun v => (v - mn) / (mx - mn + 1/10000000000))
  let peaks := lib.findPeaks signal_norm min_distance
  if peaks.length < 3 then (none, none)
  else
    let intervals := (npDiff (peaks.map (fun i => (i : ℚ)))).map (fun d => d / fs)
    let valid := intervals.filter
      (fun i => decide ((33/100) < i) && decide (i < 3/2))
    if valid.length < 2 then (none, none)
    else (some (60 / npMedian valid), some peaks)

/-- calculate_hrv_from_peaks, carried as the SQUARE of the RMSSD to
stay inside the rationals (RMSSD itself is the square root of this
value): R-R intervals in milliseconds, keep those in [300, 2000] ms,
require at least 3, mean of squared successive differences; the source
guard rmssd below 5 or above 200 is exactly the square below 25 or
above 40000 for a nonnegative radicand. -/
def calculate_hrv_from_peaks_sq (peaks : List ℕ) (fs : ℚ) : Option ℚ :=
  if peaks.length < 3 then none
  else
    let rr := (npDiff (peaks.map (fun i => (i : ℚ)))).map
      (fun d => d / fs * 1000)
    let valid_rr := rr.filter
      (fun r => decide (300 ≤ r) && decide (r ≤ 2000))
    if valid_rr.length < 3 then none
    else
      let successive := npDiff valid_rr
      let msq := npMean (successive.map (fun d => d * d))
      if msq < 25 ∨ 40000 < msq then none else some msq

/-- The temporal smoothing step of calculate_vitals: append the raw
fused estimate to the bounded history (deque maxlen 10), report the
median of the last 5 entries once at least 3 exist, else the raw
value. Returns (reported value, new history). -/
def smoothHR (hist : List ℚ) (hr : ℚ) : ℚ × List ℚ :=
  let h2 := takeLast 10 (hist ++ [hr])
  (if 3 ≤ h2.length then npMedian (takeLast 5 h2) else hr, h2)

/-- The list comprehension of the fusion step: the estimates from the
two methods that exist and lie strictly inside (45, 160) BPM. -/
def fuseSurvivors (a b : Option ℚ) : List ℚ :=
  ([a, b].filterMap id).filter
    (fun h => decide (45 < h) && decide (h < 160))

/-- The fusion step of calculate_vitals: none when no estimate
survives, else the median of the survivors. -/
def fuse_estimates (a b : Option ℚ) : Option ℚ :=
  let ests := fuseSurvivors a b
  if ests.isEmpty then none else some (npMedian ests)

/-- The actual sampling rate derived from the time buffer: the sample
count over the timestamp span when more than one timestamp exists and
the span is positive, else the nominal fps. -/
def actualFs (fps : ℚ) (nSamples : ℕ) (tb : List ℚ) : ℚ :=
  if 1 < tb.length then
    let dur := tb.getLast?.getD 0 - tb.headD 0
    if 0 < dur then (nSamples : ℚ) / dur else fps
  else fps

/-- Detrend, normalize and bandpass-filter the buffer (steps 1-3 of
calculate_vitals), with the filter falling back to the unfiltered
signal when scipy raises. Returns the filtered signal and the actual
sampling rate. -/
def vitalsPrep (lib : SciLib) (fps : ℚ) (sb tb : List ℚ) :
    List ℚ × ℚ :=
  let afs := actualFs fps sb.length tb
  let s1 := detrend_signal lib sb
  let s2 := normalizeSignal lib s1
  ((lib.bandpass s2 afs).getD s2, afs)

/-- HeartRateMonitor.calculate_vitals: the full per-epoch estimate.
Takes the signal buffer, time buffer and smoothing history; returns
((heart rate, HRV), new history). The HRV slot carries the squared
RMSSD (see calculate_hrv_from_peaks_sq); null propagation is identical
to the source. -/
def calculate_vitals (lib : SciLib) (fps : ℚ) (sb tb hist : List ℚ) :
    (Option ℚ × Option ℚ) × List ℚ :=
  if sb.length < pyInt (fps * 5) then ((none, none), hist)
  else
    let p := vitalsPrep lib fps sb tb
    let hr_fft := calculate_hr_fft lib p.1 p.2
    let hrpk := calculate_hr_peaks lib p.1 p.2
    match fuse_estimates hr_fft hrpk.1 with
    | none => ((none, none), hist)
    | some hr =>
      let sm := smoothHR hist hr
      let hrv := match hrpk.2 with
        | some ps =>
            if 3 ≤ ps.length then calculate_hrv_from_peaks_sq ps p.2
            else none
        | none => none
      ((some sm.1, hrv), sm.2)

/-- C3 amended: the 5-second guard is count-based at the nominal frame
rate — whenever the buffer holds fewer than int(fps*5) samples the
estimator returns (null, null) and leaves the history untouched. -/
theorem vitals_guard_count_based (lib : SciLib) (fps : ℚ)
    (sb tb hist : List ℚ) (h : sb.length < pyInt (fps * 5)) :
    calculate_vitals lib fps sb tb hist = ((none, none), hist) := by
  simp [calculate_vitals, h]

/-- C3 amended witness: an empty buffer at nominal 30 fps is below the
150-sample threshold and yields (null, null). -/
theorem vitals_guard_count_based_witness :
    calculate_vitals
      { trend := fun s => s.map (fun _ => 0), std := fun _ => 0,
        bandpass := fun s _ => some s, fftMags := fun s _ => s.map (fun _ => 0),
        findPeaks := fun _ _ => [] }
      30 [] [] [] = ((none, none), []) :=
  vitals_guard_count_based _ 30 [] [] []
    (by norm_num [pyInt])

/-- The exact outputs scipy/numpy produce on an all-zero signal: the
fitted trend of a zero signal is zero, its standard deviation is zero,
Butterworth filtering maps zeros to zeros, the magnitude spectrum of
the zero signal is zero in every bin, and find_peaks finds no peaks in
a constant signal. -/
def zeroSignalLib : SciLib :=
  { trend := fun s => s.map (fun _ => 0)
    std := fun _ => 0
    bandpass := fun s _ => some s
    fftMags := fun s _ => s.map (fun _ => 0)
    findPeaks := fun _ _ => [] }

/-- C3 counterexample: at nominal fps 1 the guard requires only
int(1*5) = 5 samples, so 5 samples whose timestamps span 2 seconds
(an actual rate of 2.5 Hz) pass it, and the pipeline — evaluated with
the true library outputs for this all-zero signal — reports a heart
rate of 60 BPM from the arg-max of the flat in-band spectrum. The
sequence covers less than 5 seconds yet the estimator does not return
(null, null), refuting the claim at this input. -/
theorem vitals_short_window_counterexample :
    (let sb : List ℚ := [0, 0, 0, 0, 0]
     let tb : List ℚ := [0, 1/2, 1, 3/2, 2]
     (tb.getLast?.getD 0 - tb.headD 0 < 5) ∧
     (calculate_vitals zeroSignalLib 1 sb tb []).1 = (some 60, none)) := by
  intro sb tb
  constructor
  · norm_num [tb]
  · have hguard : ¬ (sb.length < pyInt ((1 : ℚ) * 5)) := by
      norm_num [sb, pyInt]
    have hafs : actualFs 1 sb.length tb = 5/2 := by
      norm_num [actualFs, sb, tb]
    have hprep : vitalsPrep zeroSignalLib 1 sb tb = (sb, 5/2) := by
      simp only [vitalsPrep, hafs, detrend_signal, normalizeSignal,
        zeroSignalLib, npMean]
      norm_num [sb]
    have hfft : calculate_hr_fft zeroSignalLib sb (5/2) = some 60 := by
      simp only [calculate_hr_fft, zeroSignalLib, sb, fftfreq]
      norm_num [List.range_succ, lowcut, highcut, peakFreq]
    have hpk : calculate_hr_peaks zeroSignalLib sb (5/2) = (none, none) := by
      simp [calculate_hr_peaks, zeroSignalLib]
    have hfuse : fuse_estimates (some 60) none = some 60 := by
      have h1 : ((45 : ℚ) < 60) := by norm_num
      have h2 : ((60 : ℚ) < 160) := by norm_num
      simp [fuse_estimates, fuseSurvivors, npMedian, sortRat,
        insertSorted, h1, h2]
    simp only [calculate_vitals, hguard, if_false, hprep, hfft, hpk,
      hfuse, smoothHR, takeLast]
    norm_num [npMedian]

/-- C6: the reported heart rate after appending a raw fused estimate is
the median of the last 5 entries of the smoothing history once at
least 3 entries exist, and the raw estimate itself when fewer than 3
exist; the history is the last 10 appended estimates. Feeding the 5
raw estimates 70, 72, 150, 71, 69 from an empty history reports 71. -/
theorem hr_smoothing_median (hist : List ℚ) (hr : ℚ) :
    ((3 ≤ (smoothHR hist hr).2.length →
        (smoothHR hist hr).1 = npMedian (takeLast 5 (smoothHR hist hr).2)) ∧
      ((smoothHR hist hr).2.length < 3 → (smoothHR hist hr).1 = hr) ∧
      (smoothHR hist hr).2 = takeLast 10 (hist ++ [hr])) ∧
    (([(70 : ℚ), 72, 150, 71, 69].foldl
        (fun st v => smoothHR st.2 v) ((0 : ℚ), [])).1 = 71) := by
  constructor
  · refine ⟨?_, ?_, rfl⟩
    · intro h3
      simp only [smoothHR] at h3 ⊢
      rw [if_pos h3]
    · intro h3
      simp only [smoothHR] at h3 ⊢
      rw [if_neg (by omega)]
  · have s1 : smoothHR [] 70 = (70, [70]) := by
      norm_num [smoothHR, takeLast, npMedian, sortRat, insertSorted]
    have s2 : smoothHR [70] 72 = (72, [70, 72]) := by
      norm_num [smoothHR, takeLast, npMedian, sortRat, insertSorted]
    have s3 : smoothHR [70, 72] 150 = (72, [70, 72, 150]) := by
      norm_num [smoothHR, takeLast, npMedian, sortRat, insertSorted]
    have s4 : smoothHR [70, 72, 150] 71 = (143/2, [70, 72, 150, 71]) := by
      norm_num [smoothHR, takeLast, npMedian, sortRat, insertSorted]
    have s5 : smoothHR [70, 72, 150, 71] 69 = (71, [70, 72, 150, 71, 69]) := by
      norm_num [smoothHR, takeLast, npMedian, sortRat, insertSorted]
    simp only [List.foldl_cons, List.foldl_nil, s1, s2, s3, s4, s5]

/-- C6 witness: the general smoothing law applied at concrete inputs —
with history of length 2 the report is the median of the 3 entries,
with empty history the report is the raw estimate itself. -/
theorem hr_smoothing_median_witness :
    (smoothHR [1, 2] 3).1 = 2 ∧ (smoothHR [] 5).1 = 5 := by
  have h1 := (hr_smoothing_median [1, 2] 3).1.1
    (by simp [smoothHR, takeLast])
  have h2 := (hr_smoothing_median [] 5).1.2.1
    (by simp [smoothHR, takeLast])
  refine ⟨?_, h2⟩
  rw [h1]
  norm_num [smoothHR, takeLast, npMedian, sortRat, insertSorted]

/-- C7: the fusion step keeps exactly the spectral and temporal
estimates that exist and lie strictly inside (45, 160) BPM; it yields
none exactly when no estimate survives, and otherwise the raw fused
estimate is the median of the survivors; and when the fusion yields no
estimate the whole epoch returns (null, null) with the history
unchanged. -/
theorem hr_fusion_contract (a b : Option ℚ) :
    (∀ x : ℚ, x ∈ fuseSurvivors a b ↔
      ((a = some x ∨ b = some x) ∧ 45 < x ∧ x < 160)) ∧
    (fuse_estimates a b = none ↔ fuseSurvivors a b = []) ∧
    (∀ m, fuse_estimates a b = some m → m = npMedian (fuseSurvivors a b)) ∧
    (∀ (lib : SciLib) (fps : ℚ) (sb tb hist : List ℚ),
      ¬ (sb.length < pyInt (fps * 5)) →
      fuse_estimates
        (calculate_hr_fft lib (vitalsPrep lib fps sb tb).1
          (vitalsPrep lib fps sb tb).2)
        ((calculate_hr_peaks lib (vitalsPrep lib fps sb tb).1
          (vitalsPrep lib fps sb tb).2).1) = none →
      calculate_vitals lib fps sb tb hist = ((none, none), hist)) := by
  refine ⟨?_, ?_, ?_, ?_⟩
  · intro x
    simp [fuseSurvivors, List.mem_filter, List.mem_filterMap]
    tauto
  · simp only [fuse_estimates]
    constructor
    · intro h
      by_cases he : (fuseSurvivors a b).isEmpty
      · exact List.isEmpty_iff.mp he
      · rw [if_neg he] at h
        simp at h
    · intro h
      rw [if_pos (by simp [h])]
  · intro m h
    simp only [fuse_estimates] at h
    by_cases he : (fuseSurvivors a b).isEmpty
    · rw [if_pos he] at h
      simp at h
    · rw [if_neg he] at h
      exact (Option.some.inj h).symm
  · intro lib fps sb tb hist hguard hfuse
    simp only [calculate_vitals, if_neg hguard, hfuse]

/-- C7 witness: with a spectral estimate of 170 BPM (outside the band)
and a temporal estimate of 80 BPM, only 80 survives and the fused
estimate is its median; with 30 and 200 BPM nothing survives and the
fusion yields none. -/
theorem hr_fusion_contract_witness :
    fuse_estimates (some 170) (some 80) =
      some (npMedian (fuseSurvivors (some 170) (some 80))) ∧
    (80 : ℚ) ∈ fuseSurvivors (some 170) (some 80) ∧
    (170 : ℚ) ∉ fuseSurvivors (some 170) (some 80) ∧
    fuse_estimates (some 30) (some 200) = none := by
  have hmem := ((hr_fusion_contract (some 170) (some 80)).1 80).mpr
    ⟨Or.inr rfl, by norm_num, by norm_num⟩
  have hnot : (170 : ℚ) ∉ fuseSurvivors (some 170) (some 80) := by
    intro hm
    have := ((hr_fusion_contract (some 170) (some 80)).1 170).mp hm
    norm_num at this
  have hnone := (hr_fusion_contract (some 30) (some 200)).2.1.mpr (by
    have h1 : ∀ x : ℚ, x ∈ fuseSurvivors (some 30) (some 200) → False := by
      intro x hx
      have := ((hr_fusion_contract (some 30) (some 200)).1 x).mp hx
      rcases this with ⟨hor, h45, h160⟩
      rcases hor with h | h <;> · cases Option.some.inj h; norm_num at h45 h160
    cases he : fuseSurvivors (some 30) (some 200) with
    | nil => rfl
    | cons y ys => exact absurd (he ▸ List.mem_cons_self y ys) (fun hh => h1 y hh)
    )
  refine ⟨?_, hmem, hnot, hnone⟩
  have hne : ¬ (fuseSurvivors (some 170) (some 80)).isEmpty := by
    cases he : fuseSurvivors (some 170) (some 80) with
    | nil => rw [he] at hmem; cases hmem
    | cons y ys => simp
  simp only [fuse_estimates, if_neg hne]

/-- The nonnegativity of the mean of squares, needed to read the
squared RMSSD back as a root mean square. -/
lemma npMean_squares_nonneg (l : List ℚ) :
    0 ≤ npMean (l.map (fun d => d * d)) := by
  unfold npMean
  apply div_nonneg
  · apply List.sum_nonneg
    intro x hx
    rcases List.mem_map.mp hx with ⟨d, _, rfl⟩
    exact mul_self_nonneg d
  · positivity

/-- C8: the HRV value is produced only when the peak detector found at
least 3 peaks; the R-R intervals are the successive peak differences
converted to milliseconds, only intervals inside [300, 2000] ms are
retained and at least 3 must survive; the produced value is the mean of
the squared successive differences of the surviving intervals, so the
RMSSD — its square root — is the root mean square of those successive
differences; and the value is rejected when the RMSSD falls outside
[5, 200] ms, i.e. the accepted square lies in [25, 40000]. Finally, the
epoch HRV slot of calculate_vitals is filled only from
calculate_hrv_from_peaks_sq on a peak list of length at least 3. -/
theorem hrv_rmssd_contract (peaks : List ℕ) (fs : ℚ) :
    (peaks.length < 3 → calculate_hrv_from_peaks_sq peaks fs = none) ∧
    (∀ m, calculate_hrv_from_peaks_sq peaks fs = some m →
      3 ≤ peaks.length ∧
      (let rr := (npDiff (peaks.map (fun i => (i : ℚ)))).map
        (fun d => d / fs * 1000)
       let valid := rr.filter
        (fun r => decide (300 ≤ r) && decide (r ≤ 2000))
       3 ≤ valid.length ∧
       (∀ r ∈ valid, r ∈ rr ∧ 300 ≤ r ∧ r ≤ 2000) ∧
       m = npMean ((npDiff valid).map (fun d => d * d)) ∧
       Real.sqrt (m : ℝ) * Real.sqrt (m : ℝ) = (m : ℝ) ∧
       5 ≤ Real.sqrt (m : ℝ) ∧ Real.sqrt (m : ℝ) ≤ 200)) ∧
    (∀ (lib : SciLib) (fps : ℚ) (sb tb hist : List ℚ) (m : ℚ),
      ((calculate_vitals lib fps sb tb hist).1).2 = some m →
      ∃ ps, (calculate_hr_peaks lib (vitalsPrep lib fps sb tb).1
          (vitalsPrep lib fps sb tb).2).2 = some ps ∧
        3 ≤ ps.length ∧
        calculate_hrv_from_peaks_sq ps (vitalsPrep lib fps sb tb).2
          = some m) := by
  refine ⟨?_, ?_, ?_⟩
  · intro h
    simp [calculate_hrv_from_peaks_sq, h]
  · intro m h
    simp only [calculate_hrv_from_peaks_sq] at h
    split at h
    · exact absurd h (by simp)
    · rename_i hlen
      refine ⟨by omega, ?_⟩
      intro rr valid
      split at h
      · exact absurd h (by simp)
      · rename_i hvalid
        split at h
        · exact absurd h (by simp)
        · rename_i hband
          push_neg at hband
          have hm : m = npMean ((npDiff valid).map (fun d => d * d)) :=
            (Option.some.inj h).symm
          have hnn : (0 : ℚ) ≤ m := hm ▸ npMean_squares_nonneg _
          have h25 : (25 : ℚ) ≤ m := hm ▸ hband.1
          have h4e4 : m ≤ 40000 := hm ▸ hband.2
          have h25R : (25 : ℝ) ≤ (m : ℚ) := by exact_mod_cast h25
          have h4e4R : ((m : ℚ) : ℝ) ≤ 40000 := by exact_mod_cast h4e4
          have hnnR : (0 : ℝ) ≤ ((m : ℚ) : ℝ) := by exact_mod_cast hnn
          refine ⟨Nat.not_lt.mp hvalid, ?_, hm, Real.mul_self_sqrt hnnR,
            ?_, ?_⟩
          · intro r hrmem
            have := List.mem_filter.mp hrmem
            refine ⟨this.1, ?_, ?_⟩
            · have hb := this.2
              simp only [Bool.and_eq_true, decide_eq_true_eq] at hb
              exact hb.1
            · have hb := this.2
              simp only [Bool.and_eq_true, decide_eq_true_eq] at hb
              exact hb.2
          · have : Real.sqrt 25 ≤ Real.sqrt (m : ℚ) := Real.sqrt_le_sqrt h25R
            calc (5 : ℝ) = Real.sqrt 25 := by
                  rw [show (25 : ℝ) = 5 ^ 2 by norm_num,
                    Real.sqrt_sq (by norm_num : (0:ℝ) ≤ 5)]
              _ ≤ Real.sqrt (m : ℚ) := this
          · have : Real.sqrt (m : ℚ) ≤ Real.sqrt 40000 :=
              Real.sqrt_le_sqrt h4e4R
            calc Real.sqrt (m : ℚ) ≤ Real.sqrt 40000 := this
              _ = 200 := by
                  rw [show (40000 : ℝ) = 200 ^ 2 by norm_num,
                    Real.sqrt_sq (by norm_num : (0:ℝ) ≤ 200)]
  · intro lib fps sb tb hist m h
    simp only [calculate_vitals] at h
    split at h
    · simp at h
    · split at h
      · simp at h
      · rename_i hr hfuse
        split at h
        · rename_i ps heq
          split at h
          · rename_i hlen
            exact ⟨ps, heq, hlen, h⟩
          · simp at h
        · simp at h

/-- C8 witness: four peaks at samples 0, 30, 61, 91 at 30 Hz give R-R
intervals of 1000, 3100/3 and 1000 ms, all retained; the squared RMSSD
is 10000/9 (an RMSSD of 100/3 ms, inside the plausible band); two peaks
give none. -/
theorem hrv_rmssd_contract_witness :
    calculate_hrv_from_peaks_sq [0, 30, 61, 91] 30 = some (10000/9) ∧
    5 ≤ Real.sqrt ((10000/9 : ℚ) : ℝ) ∧
    Real.sqrt ((10000/9 : ℚ) : ℝ) ≤ 200 ∧
    calculate_hrv_from_peaks_sq [0, 30] 30 = none := by
  have heval : calculate_hrv_from_peaks_sq [0, 30, 61, 91] 30
      = some (10000/9) := by
    norm_num [calculate_hrv_from_peaks_sq, npDiff, npMean]
  have h := (hrv_rmssd_contract [0, 30, 61, 91] 30).2.1 (10000/9) heval
  have hnone := (hrv_rmssd_contract [0, 30] 30).1 (by norm_num)
  exact ⟨heval, h.2.2.2.2.2.1, h.2.2.2.2.2.2, hnone⟩

/-! ## Face tracker (camera.py, HeartRateMonitor.run) -/

/-- A detected face rectangle (x, y, w, h) in frame coordinates. -/
structure FaceRect where
  x : ℤ
  y : ℤ
  w : ℤ
  h : ℤ
deriving DecidableEq, Repr

/-- Python min over a nonempty list with a key: the first element
attaining the minimal key. -/
def pickMinBy (key : FaceRect → ℤ) (f0 : FaceRect) (rest : List FaceRect) :
    FaceRect :=
  rest.foldl (fun best g => if key g < key best then g else best) f0

/-- Python max over a nonempty list with a key: the first element
attaining the maximal key. -/
def pickMaxBy (key : FaceRect → ℤ) (f0 : FaceRect) (rest : List FaceRect) :
    FaceRect :=
  rest.foldl (fun best g => if key best < key g then g else best) f0

/-- The face selection of HeartRateMonitor.run: with a previous
rectangle, the candidate minimizing the Manhattan distance of the
top-left corner to it; otherwise the largest-area candidate; none when
nothing was detected. The returned value is also the new continuity
anchor self.last_face, so a frame with no detection clears it. -/
def selectFace (faces : List FaceRect) (last_face : Option FaceRect) :
    Option FaceRect :=
  match faces with
  | [] => none
  | f0 :: rest =>
    match last_face with
    | some lf =>
        some (pickMinBy (fun f => |f.x - lf.x| + |f.y - lf.y|) f0 rest)
    | none => some (pickMaxBy (fun f => f.w * f.h) f0 rest)

lemma pickMinBy_spec (key : FaceRect → ℤ) (f0 : FaceRect)
    (rest : List FaceRect) :
    pickMinBy key f0 rest ∈ f0 :: rest ∧
      ∀ g ∈ f0 :: rest, key (pickMinBy key f0 rest) ≤ key g := by
  induction rest generalizing f0 with
  | nil =>
      refine ⟨List.mem_cons_self f0 [], ?_⟩
      intro g hg
      rcases List.mem_cons.mp hg with rfl | hg
      · exact le_refl _
      · cases hg
  | cons a rest ih =>
      by_cases h : key a < key f0
      · have hfold : pickMinBy key f0 (a :: rest) = pickMinBy key a rest := by
          simp [pickMinBy, h]
        obtain ⟨hmem, hle⟩ := ih a
        rw [hfold]
        refine ⟨List.mem_cons_of_mem f0 hmem, ?_⟩
        intro g hg
        rcases List.mem_cons.mp hg with rfl | hg'
        · exact le_trans (hle a (List.mem_cons_self a rest)) (le_of_lt h)
        · exact hle g hg'
      · have hfold : pickMinBy key f0 (a :: rest) = pickMinBy key f0 rest := by
          simp [pickMinBy, h]
        obtain ⟨hmem, hle⟩ := ih f0
        rw [hfold]
        constructor
        · rcases List.mem_cons.mp hmem with he | hmem'
          · rw [he]
            exact List.mem_cons_self f0 (a :: rest)
          · exact List.mem_cons_of_mem f0 (List.mem_cons_of_mem a hmem')
        · intro g hg
          rcases List.mem_cons.mp hg with rfl | hg'
          · exact hle g (List.mem_cons_self g rest)
          · rcases List.mem_cons.mp hg' with rfl | hg''
            · exact le_trans (hle f0 (List.mem_cons_self f0 rest))
                (le_of_not_lt h)
            · exact hle g (List.mem_cons_of_mem f0 hg'')

lemma pickMaxBy_spec (key : FaceRect → ℤ) (f0 : FaceRect)
    (rest : List FaceRect) :
    pickMaxBy key f0 rest ∈ f0 :: rest ∧
      ∀ g ∈ f0 :: rest, key g ≤ key (pickMaxBy key f0 rest) := by
  induction rest generalizing f0 with
  | nil =>
      refine ⟨List.mem_cons_self f0 [], ?_⟩
      intro g hg
      rcases List.mem_cons.mp hg with rfl | hg
      · exact le_refl _
      · cases hg
  | cons a rest ih =>
      by_cases h : key f0 < key a
      · have hfold : pickMaxBy key f0 (a :: rest) = pickMaxBy key a rest := by
          simp [pickMaxBy, h]
        obtain ⟨hmem, hle⟩ := ih a
        rw [hfold]
        refine ⟨List.mem_cons_of_mem f0 hmem, ?_⟩
        intro g hg
        rcases List.mem_cons.mp hg with rfl | hg'
        · exact le_trans (le_of_lt h) (hle a (List.mem_cons_self a rest))
        · exact hle g hg'
      · have hfold : pickMaxBy key f0 (a :: rest) = pickMaxBy key f0 rest := by
          simp [pickMaxBy, h]
        obtain ⟨hmem, hle⟩ := ih f0
        rw [hfold]
        constructor
        · rcases List.mem_cons.mp hmem with he | hmem'
          · rw [he]
            exact List.mem_cons_self f0 (a :: rest)
          · exact List.mem_cons_of_mem f0 (List.mem_cons_of_mem a hmem')
        · intro g hg
          rcases List.mem_cons.mp hg with rfl | hg'
          · exact hle g (List.mem_cons_self g rest)
          · rcases List.mem_cons.mp hg' with rfl | hg''
            · exact le_trans (le_of_not_lt h)
                (hle f0 (List.mem_cons_self f0 rest))
            · exact hle g (List.mem_cons_of_mem f0 hg'')

/-- C9: with a previous rectangle the tracker selects a detected
candidate minimizing the Manhattan distance of its top-left corner to
the previous rectangle — regardless of the areas of the candidates;
with no previous rectangle it selects a candidate of maximal area; and
a frame with no detection yields none, clearing the continuity anchor
(the selection result is the next frame's anchor). -/
theorem face_tracker_selection (faces : List FaceRect) (lf : FaceRect) :
    (faces ≠ [] →
      ∃ sel, selectFace faces (some lf) = some sel ∧ sel ∈ faces ∧
        ∀ g ∈ faces,
          |sel.x - lf.x| + |sel.y - lf.y| ≤ |g.x - lf.x| + |g.y - lf.y|) ∧
    (faces ≠ [] →
      ∃ sel, selectFace faces none = some sel ∧ sel ∈ faces ∧
        ∀ g ∈ faces, g.w * g.h ≤ sel.w * sel.h) ∧
    selectFace [] (some lf) = none ∧ selectFace [] none = none := by
  refine ⟨?_, ?_, rfl, rfl⟩
  · intro hne
    match faces with
    | [] => exact absurd rfl hne
    | f0 :: rest =>
        obtain ⟨hmem, hle⟩ :=
          pickMinBy_spec (fun f => |f.x - lf.x| + |f.y - lf.y|) f0 rest
        exact ⟨_, rfl, hmem, hle⟩
  · intro hne
    match faces with
    | [] => exact absurd rfl hne
    | f0 :: rest =>
        obtain ⟨hmem, hle⟩ := pickMaxBy_spec (fun f => f.w * f.h) f0 rest
        exact ⟨_, rfl, hmem, hle⟩

/-- C9 witness: with a previous rectangle at (1,1) the tracker picks
the candidate at (0,0) of area 100 over the candidate at (100,100) of
larger area 2500; without a previous rectangle it picks the larger
candidate; an empty detection clears the anchor. -/
theorem face_tracker_selection_witness :
    selectFace [⟨0, 0, 10, 10⟩, ⟨100, 100, 50, 50⟩] (some ⟨1, 1, 10, 10⟩)
      = some ⟨0, 0, 10, 10⟩ ∧
    ((10 : ℤ) * 10 < 50 * 50) ∧
    selectFace [⟨0, 0, 10, 10⟩, ⟨100, 100, 50, 50⟩] none
      = some ⟨100, 100, 50, 50⟩ ∧
    selectFace [] (some ⟨1, 1, 10, 10⟩) = none := by
  have h := face_tracker_selection [⟨0, 0, 10, 10⟩, ⟨100, 100, 50, 50⟩]
    ⟨1, 1, 10, 10⟩
  obtain ⟨sel, hsel, -, -⟩ := h.1 (by simp)
  refine ⟨by decide, by decide, by decide, h.2.2.1⟩

/-! ## Vitals-aware cascade variant
(llm_client.py, ResilientLLMClient.generate_with_vitals) -/

/-- The vitals map passed to generate_with_vitals; absent keys are
none. The enhanced system prompt built from these values feeds the
remote providers, whose outcomes the environment already fixes, so it
does not appear separately here. -/
structure VitalsMap where
  heart_rate : Option ℚ := none
  hrv : Option ℚ := none
  quality_score : Option ℚ := none
deriving DecidableEq, Repr

/-- generate_with_vitals: run the cascade; if it bottomed out at the
hardcoded static tier, replace the text with the heart-rate-band
fallback built from vitals.get with default 75, recording the fallback
record in the metadata; any other provider response is returned
unchanged. -/
def generate_with_vitals (prompt : String) (env : CascadeEnv)
    (bs : Breakers) (vitals : VitalsMap) (patient_name : Option String) :
    CascadeResult :=
  let r := generate prompt env bs
  if r.resp.provider = LLMProvider.hardcoded then
    let heart_rate := vitals.heart_rate.getD 75
    let fallback := get_vital_response_fallback heart_rate vitals.hrv
      (patient_name.getD "there")
    let newMeta := { r.resp.metadata with vital_fallback := some fallback }
    let newResp :=
      { r.resp with text := fallback.message, metadata := newMeta }
    { r with resp := newResp }
  else r

/-- A response from the local sentiment tier always carries the fixed
emergency text. -/
lemma generate_sentiment_text (prompt : String) (env : CascadeEnv)
    (bs : Breakers)
    (hp : (generate prompt env bs).resp.provider
      = LLMProvider.local_sentiment) :
    (generate prompt env bs).resp.text = EMERGENCY_CONTACT_MESSAGE := by
  rcases tier1_cases env bs with ⟨r1, bs1, h1, _, hp1, _, _⟩ |
    ⟨bs1, h1, _⟩ | h1
  · have hres : (generate prompt env bs).resp = r1 := by
      simp [generate, h1]
    rw [hres, hp1] at hp
    exact absurd hp (by decide)
  · rcases tier2_cases env bs1 with ⟨r2, bs2, h2, _, hp2, _, _⟩ |
      ⟨bs2, h2, _⟩ | h2
    · have hres : (generate prompt env bs).resp = r2 := by
        simp [generate, h1, h2]
      rw [hres, hp2] at hp
      exact absurd hp (by decide)
    · rcases tier34_shape prompt env with h34 | h34
      · simp [generate, h1, h2, h34]
      · have hres : (generate prompt env bs).resp.provider
            = LLMProvider.hardcoded := by
          simp [generate, h1, h2, h34]
        rw [hres] at hp
        exact absurd hp (by decide)
    · rcases tier34_shape prompt env with h34 | h34
      · simp [generate, h1, h2, h34]
      · have hres : (generate prompt env bs).resp.provider
            = LLMProvider.hardcoded := by
          simp [generate, h1, h2, h34]
        rw [hres] at hp
        exact absurd hp (by decide)
  · rcases tier2_cases env bs with ⟨r2, bs2, h2, _, hp2, _, _⟩ |
      ⟨bs2, h2, _⟩ | h2
    · have hres : (generate prompt env bs).resp = r2 := by
        simp [generate, h1, h2]
      rw [hres, hp2] at hp
      exact absurd hp (by decide)
    · rcases tier34_shape prompt env with h34 | h34
      · simp [generate, h1, h2, h34]
      · have hres : (generate prompt env bs).resp.provider
            = LLMProvider.hardcoded := by
          simp [generate, h1, h2, h34]
        rw [hres] at hp
        exact absurd hp (by decide)
    · rcases tier34_shape prompt env with h34 | h34
      · simp [generate, h1, h2, h34]
      · have hres : (generate prompt env bs).resp.provider
            = LLMProvider.hardcoded := by
          simp [generate, h1, h2, h34]
        rw [hres] at hp
        exact absurd hp (by decide)

/-- C10: the heart-rate-band fallback replaces the cascade text only
when the cascade bottomed out at the hardcoded static tier — any other
provider response, in particular a distress-tier local_sentiment
response with its emergency text, is returned unchanged; and when the
vitals map has no heart_rate entry the default of 75 BPM selects the
normal-range (60 to 100 BPM) healthy message, reporting 75 bpm with
risk level LOW. -/
theorem vitals_fallback_substitution (prompt : String) (env : CascadeEnv)
    (bs : Breakers) (vitals : VitalsMap) (pname : Option String) :
    ((generate prompt env bs).resp.provider ≠ LLMProvider.hardcoded →
      generate_with_vitals prompt env bs vitals pname
        = generate prompt env bs) ∧
    ((generate prompt env bs).resp.provider = LLMProvider.local_sentiment →
      (generate_with_vitals prompt env bs vitals pname).resp.text
        = EMERGENCY_CONTACT_MESSAGE) ∧
    ((generate prompt env bs).resp.provider = LLMProvider.hardcoded →
      vitals.heart_rate = none →
      (generate_with_vitals prompt env bs vitals pname).resp.text
          = (get_vital_response_fallback 75 vitals.hrv
              (pname.getD "there")).message ∧
      (generate_with_vitals prompt env bs vitals
          pname).resp.metadata.vital_fallback
          = some (get_vital_response_fallback 75 vitals.hrv
              (pname.getD "there")) ∧
      (get_vital_response_fallback 75 vitals.hrv
          (pname.getD "there")).risk_level = "LOW" ∧
      (get_vital_response_fallback 75 vitals.hrv
          (pname.getD "there")).message
          = "Good news, " ++ (if pname.getD "there" = "there" then "there"
              else firstToken (pname.getD "there")) ++
            "! Your heart rate is " ++ toString (pyTrunc 75) ++
            " bpm, which looks healthy. Keep taking care of yourself!") := by
  refine ⟨?_, ?_, ?_⟩
  · intro hnp
    simp [generate_with_vitals, hnp]
  · intro hp
    have hnp : (generate prompt env bs).resp.provider
        ≠ LLMProvider.hardcoded := by
      rw [hp]
      decide
    have hsame : generate_with_vitals prompt env bs vitals pname
        = generate prompt env bs := by
      simp [generate_with_vitals, hnp]
    rw [hsame]
    exact generate_sentiment_text prompt env bs hp
  · intro hp hhr
    have hlow : get_vital_response_fallback 75 vitals.hrv (pname.getD "there")
        = { risk_level := "LOW"
            message := "Good news, " ++ (if pname.getD "there" = "there"
                then "there" else firstToken (pname.getD "there")) ++
              "! Your heart rate is " ++ toString (pyTrunc 75) ++
              " bpm, which looks healthy. Keep taking care of yourself!"
            action := none
            should_follow_up := false } := by
      rw [get_vital_response_fallback,
        if_pos (⟨by norm_num, by norm_num⟩ : (60 : ℚ) ≤ 75 ∧ (75 : ℚ) ≤ 100)]
    refine ⟨?_, ?_, by rw [hlow], by rw [hlow]⟩
    · simp [generate_with_vitals, hp, hhr]
    · simp [generate_with_vitals, hp, hhr]

/-- C10 witness: with both providers unconfigured and no heart_rate
entry in the vitals map, a neutral prompt bottoms out at the static
tier and the caller receives the healthy 75 bpm message; a distressed
prompt stops at the sentiment tier and keeps its emergency text. -/
theorem vitals_fallback_substitution_witness :
    (let env : CascadeEnv :=
      { gemini_client := false, groq_api_key := false,
        gemini_outcome := .timeout, groq_outcome := .timeout,
        vader_compound := some 0, now := 0, latency := 1 }
     (generate_with_vitals "hello" env {} {} none).resp.text
        = "Good news, there! Your heart rate is 75 bpm, which looks " ++
          "healthy. Keep taking care of yourself!" ∧
     (generate_with_vitals "please help" env {} {} none).resp.text
        = EMERGENCY_CONTACT_MESSAGE) := by
  intro env
  have h1 : tier1 env {} = (none, {}, []) := tier1_not_tried (by decide)
  have h2 : tier2 env {} = (none, {}, []) := tier2_not_tried (by decide)
  have hd : (analyze_sentiment "hello" env.vader_compound).is_distressed
      = false := by
    show (analyze_sentiment "hello" (some 0)).is_distressed = false
    simp only [analyze_sentiment]
    rw [if_neg (by norm_num), if_neg (by norm_num)]
    decide
  have h34 : tier34 "hello" env =
      ({ success := true, text := NEUTRAL_FALLBACK_MESSAGE,
         provider := .hardcoded, latency_ms := env.latency,
         fallback_used := true,
         fallback_reason := some "all_llm_unavailable",
         sentiment := some "neutral", metadata := {} },
       Tier.staticTier) := by
    simp [tier34, hd]
  have hprov : (generate "hello" env {}).resp.provider
      = LLMProvider.hardcoded := by
    simp [generate, h1, h2, h34]
  have happ := (vitals_fallback_substitution "hello" env {} {} none).2.2
    hprov rfl
  have hd2 : (analyze_sentiment "please help"
      env.vader_compound).is_distressed = true := by
    show (analyze_sentiment "please help" (some 0)).is_distressed = true
    simp only [analyze_sentiment]
    rw [if_neg (by norm_num), if_neg (by norm_num)]
    decide
  have h34b : tier34 "please help" env =
      ({ success := true, text := EMERGENCY_CONTACT_MESSAGE,
         provider := .local_sentiment, latency_ms := env.latency,
         fallback_used := true,
         fallback_reason := some "all_llm_unavailable",
         sentiment := some "negative",
         metadata := { should_alert := true } },
       Tier.sentimentTier) := by
    simp [tier34, hd2]
  have hprov2 : (generate "please help" env {}).resp.provider
      = LLMProvider.local_sentiment := by
    simp [generate, h1, h2, h34b]
  have happ2 := (vitals_fallback_substitution "please help" env {} {}
    none).2.1 hprov2
  refine ⟨?_, happ2⟩
  have hps : pyTrunc 75 = 75 := by
    norm_num [pyTrunc]
  rw [happ.1, happ.2.2.2, hps]
  decide
